import Mathlib

/-!
Shallow embedding of `src/main.py` (a small pygame arcade game) and proofs
about it. Real numbers of the source (Python floats) are modelled as `ℚ`;
machine integers as `ℤ`/`ℕ`; pygame's per-frame elapsed wall time (the value
returned by `Clock.tick`) is an explicit input in milliseconds. Entities and
the per-frame loop are explicit state passing over records.
-/

namespace EGame

/-- Playfield width, `GAME_WIDTH = 800` (main.py line 9). -/
def GAME_WIDTH : ℚ := 800

/-- Playfield height, `GAME_HEIGHT = 600` (main.py line 10). -/
def GAME_HEIGHT : ℚ := 600

/-- Python `int(...)` applied to a float truncates toward zero. -/
def pytrunc (q : ℚ) : ℤ := if 0 ≤ q then ⌊q⌋ else ⌈q⌉

/-- The `Vector` class (main.py lines 60-87). -/
structure Vec where
  x : ℚ
  y : ℚ
deriving DecidableEq

/-- Vector addition, `Vector.__add__` (line 65). -/
def Vec.add (a b : Vec) : Vec := ⟨a.x + b.x, a.y + b.y⟩

/-- Vector subtraction, `Vector.__sub__` (line 68). -/
def Vec.sub (a b : Vec) : Vec := ⟨a.x - b.x, a.y - b.y⟩

/-- Axis projection `get_x_vector` (line 74). -/
def Vec.get_x_vector (v : Vec) : Vec := ⟨v.x, 0⟩

/-- Axis projection `get_y_vector` (line 77). -/
def Vec.get_y_vector (v : Vec) : Vec := ⟨0, v.y⟩

/-- In-place mutation `set_x_vector` (line 83), modelled functionally. -/
def Vec.set_x_vector (v : Vec) (x : ℚ) : Vec := ⟨x, v.y⟩

/-- In-place mutation `set_y_vector` (line 86), modelled functionally. -/
def Vec.set_y_vector (v : Vec) (y : ℚ) : Vec := ⟨v.x, y⟩

/-- A `pygame.rect.Rect`: integer position and size. -/
structure Rect where
  x : ℤ
  y : ℤ
  w : ℤ
  h : ℤ
deriving DecidableEq

/-- `Rect.colliderect`: axis-aligned overlap test; rects with a zero-sized
side never collide (pygame semantics for non-negative sizes). -/
def Rect.colliderect (a b : Rect) : Bool :=
  decide (a.w ≠ 0) && decide (a.h ≠ 0) && decide (b.w ≠ 0) && decide (b.h ≠ 0) &&
  decide (a.x < b.x + b.w) && decide (b.x < a.x + a.w) &&
  decide (a.y < b.y + b.h) && decide (b.y < a.y + a.h)

/-- The `Timer` class state (main.py lines 334-361): the remaining `time` in
seconds. Rendering state (font, rendered text) is pure display data and is
not carried. The completion callback `on_end` is applied by each call site. -/
structure Timer where
  time : ℚ
deriving DecidableEq

/-- `Timer.tick` (lines 353-361): if `time > 0`, the timer's own frame clock
is ticked (the elapsed milliseconds `ms` are an input from the host library)
and `time` is decremented by `ms / 1000`; afterwards, if `time <= 0`, the
callback `on_end` fires. The returned `Bool` is whether `on_end` fired.
Note the decrement is guarded by `time > 0` but the callback is not guarded
by any "already fired" flag. -/
def Timer.tick (t : Timer) (ms : ℕ) : Timer × Bool :=
  let t2 := if t.time > 0 then Timer.mk (t.time - (ms : ℚ) / 1000) else t
  (t2, decide (t2.time ≤ 0))

/-- Tick one `Timer` repeatedly with the given per-frame elapsed times,
counting how many times the completion callback fires. -/
def Timer.run (t : Timer) (frames : List ℕ) : Timer × ℕ :=
  frames.foldl
    (fun acc ms =>
      let r := Timer.tick acc.1 ms
      (r.1, acc.2 + if r.2 then 1 else 0))
    (t, 0)

/-- One animation cycle of the sprite sheet (`SpriteCycle`, lines 107-122):
an interval, the internal re-arming `Timer`, the current frame index and the
number of frames. -/
structure Cycle where
  interval : ℚ
  timer : Timer
  index : ℕ
  len : ℕ
deriving DecidableEq

/-- Ticking a `SpriteCycle`'s internal timer: `Timer.tick` whose `on_end`
callback (`interval_end`, lines 109-112) advances the frame index modulo the
cycle length and replaces the timer with a fresh `Timer interval`. The `ℕ`
result counts frame-pacing calls (`fps_clock.tick`, performed iff the
remaining time was positive, line 354-355). -/
def Cycle.tick (c : Cycle) (ms : ℕ) : Cycle × ℕ :=
  let calls : ℕ := if c.timer.time > 0 then 1 else 0
  let r := c.timer.tick ms
  if r.2 then ({ c with timer := ⟨c.interval⟩, index := (c.index + 1) % c.len }, calls)
  else ({ c with timer := r.1 }, calls)

/-- Discrete movement state of the player (line 173). -/
inductive PState where
  | still
  | moving
deriving DecidableEq

/-- Boolean key snapshot for the keys the game reads. -/
structure Keys where
  w : Bool
  s : Bool
  a : Bool
  d : Bool
  escape : Bool
deriving DecidableEq

/-- `Player.MAX_SPEED = 3` (line 158). -/
def MAX_SPEED : ℚ := 3

/-- `Player.WIDTH = 48` (line 159). -/
def WIDTH : ℚ := 48

/-- `Player.HEIGHT = 48` (line 160). -/
def HEIGHT : ℚ := 48

/-- `Player.FRICTION_VECTOR = Vector(0.05, 0.05)` (line 161). -/
def FRICTION_VECTOR : Vec := ⟨1/20, 1/20⟩

/-- The hitbox rectangle computed by `Player.__init__` (lines 168-169) and
`Player.move` (lines 250-251): `Rect(int(x - WIDTH/2), int(y - HEIGHT/2),
WIDTH, HEIGHT)`. -/
def playerRect (x y : ℚ) : Rect :=
  ⟨pytrunc (x - WIDTH / 2), pytrunc (y - HEIGHT / 2), 48, 48⟩

/-- The `Player` class state (lines 157-180). The sprite sheet's nine
animation cycles are carried as `sprites` (their image data is pure display
data). -/
structure Player where
  x : ℚ
  y : ℚ
  acceleration_vector : Vec
  velocity_vector : Vec
  hitbox : Rect
  sight : ℚ
  show_sight : Bool
  is_playing_animation : Bool
  state : PState
  sprites : List Cycle
deriving DecidableEq

/-- The nine `SpriteCycle`s built by `Player.__init__`'s `SpriteSheet`
(lines 175-180): frame counts `[2,2,4,8,6,8,3,8,8]` and cycle times
`[1, 0.1, 0.1, 0.1, 0.1, 0.1, 0.1, 0.1, 0.1]`. -/
def initCycles : List Cycle :=
  [⟨1, ⟨1⟩, 0, 2⟩, ⟨1/10, ⟨1/10⟩, 0, 2⟩, ⟨1/10, ⟨1/10⟩, 0, 4⟩,
   ⟨1/10, ⟨1/10⟩, 0, 8⟩, ⟨1/10, ⟨1/10⟩, 0, 6⟩, ⟨1/10, ⟨1/10⟩, 0, 8⟩,
   ⟨1/10, ⟨1/10⟩, 0, 3⟩, ⟨1/10, ⟨1/10⟩, 0, 8⟩, ⟨1/10, ⟨1/10⟩, 0, 8⟩]

/-- `Player.__init__` (lines 163-180). -/
def Player.init (x y : ℚ) (acceleration_vector : Vec) : Player :=
  { x := x, y := y, acceleration_vector := acceleration_vector,
    velocity_vector := ⟨0, 0⟩, hitbox := playerRect x y, sight := 0,
    show_sight := false, is_playing_animation := true, state := .still,
    sprites := initCycles }

/-- The directional-acceleration statements of `Player.key_move`
(lines 183-193): for each held key, add or subtract the axis-projected
acceleration. -/
def accelStep (v a : Vec) (keys : Keys) : Vec :=
  let v := if keys.w then v.sub a.get_y_vector else v
  let v := if keys.s then v.add a.get_y_vector else v
  let v := if keys.a then v.sub a.get_x_vector else v
  let v := if keys.d then v.add a.get_x_vector else v
  v

/-- The clamp statements of `Player.key_move` (lines 197-207): clamp each
axis to `±MAX_SPEED`; the conditions read the snapshot `velocity_x`,
`velocity_y` taken at line 195. -/
def clampStep (v : Vec) (velocity_x velocity_y : ℚ) : Vec :=
  let v := if velocity_x > MAX_SPEED then v.set_x_vector MAX_SPEED else v
  let v := if velocity_x < -MAX_SPEED then v.set_x_vector (-MAX_SPEED) else v
  let v := if velocity_y > MAX_SPEED then v.set_y_vector MAX_SPEED else v
  let v := if velocity_y < -MAX_SPEED then v.set_y_vector (-MAX_SPEED) else v
  v

/-- The friction statements of `Player.key_move` (lines 209-219): by the
sign of the snapshot `velocity_x`, `velocity_y` (not the clamped value),
subtract or add the axis-projected friction vector. -/
def frictionStep (v : Vec) (velocity_x velocity_y : ℚ) : Vec :=
  let v := if velocity_x > 0 then v.sub FRICTION_VECTOR.get_x_vector else v
  let v := if velocity_y > 0 then v.sub FRICTION_VECTOR.get_y_vector else v
  let v := if velocity_x < 0 then v.add FRICTION_VECTOR.get_x_vector else v
  let v := if velocity_y < 0 then v.add FRICTION_VECTOR.get_y_vector else v
  v

/-- The deadband statements of `Player.key_move` (lines 221-225): snap each
axis of the current velocity to exactly 0 if its magnitude is below 0.05. -/
def deadbandStep (v : Vec) : Vec :=
  let v := if -(1/20) < v.x ∧ v.x < 1/20 then v.set_x_vector 0 else v
  let v := if -(1/20) < v.y ∧ v.y < 1/20 then v.set_y_vector 0 else v
  v

/-- `Player.key_move` (lines 182-230): directional acceleration, the
`velocity_x`/`velocity_y` snapshot (line 195), per-axis clamp, friction,
deadband snap, and the discrete movement state (lines 227-230, decided by
the snapshot). -/
def Player.key_move (p : Player) (keys : Keys) : Player :=
  let v := accelStep p.velocity_vector p.acceleration_vector keys
  let velocity_x := v.x
  let velocity_y := v.y
  let v := clampStep v velocity_x velocity_y
  let v := frictionStep v velocity_x velocity_y
  let v := deadbandStep v
  let st := if velocity_x ≠ 0 ∨ velocity_y ≠ 0 then PState.moving else PState.still
  { p with velocity_vector := v, state := st }

/-- `Player.move` (lines 232-251): add velocity to position, clamp the
position so the hitbox stays inside the playfield, recompute the hitbox. -/
def Player.move (p : Player) : Player :=
  let x := p.x + p.velocity_vector.x
  let y := p.y + p.velocity_vector.y
  let x := if x < WIDTH / 2 then WIDTH / 2 else x
  let x := if x > GAME_WIDTH - WIDTH / 2 then GAME_WIDTH - WIDTH / 2 else x
  let y := if y < HEIGHT / 2 then HEIGHT / 2 else y
  let y := if y > GAME_HEIGHT - HEIGHT / 2 then GAME_HEIGHT - HEIGHT / 2 else y
  { p with x := x, y := y, hitbox := playerRect x y }

/-- The sight-reveal animation step of `Player.draw` (lines 269-273). -/
def Player.drawSight (p : Player) : Player :=
  if p.sight < 1 ∧ p.is_playing_animation then { p with sight := p.sight + 1/50 }
  else if 1 ≤ p.sight ∧ p.is_playing_animation then
    { p with sight := 1, is_playing_animation := false }
  else p

/-- The state changes of `Player.draw` (lines 253-290): every owned sprite
cycle's internal timer is ticked (lines 254-255), then the sight reveal
advances (lines 269-273). All other work of `draw` is pure rendering. The
`ℕ` result counts frame-pacing calls made by the cycle timers. -/
def Player.draw (p : Player) (ms : ℕ) : Player × ℕ :=
  let r := p.sprites.foldl
    (fun (acc : List Cycle × ℕ) c =>
      let s := c.tick ms
      (acc.1 ++ [s.1], acc.2 + s.2))
    ([], 0)
  (Player.drawSight { p with sprites := r.1 }, r.2)

/-- The sight decrement of `on_player_bullet_collide` (lines 481-482):
`if user.sight >= 0.1: user.sight -= 0.05`. -/
def hitSight (p : Player) : Player :=
  if 1/10 ≤ p.sight then { p with sight := p.sight - 1/20 } else p

/-- `on_player_wall_collide` (lines 484-486): teleport the player to
`(50, 50)` and zero its velocity. The hitbox is not touched. -/
def on_player_wall_collide (p : Player) : Player :=
  { p with x := 50, y := 50, velocity_vector := ⟨0, 0⟩ }

/-- An event of the host input-event queue; only the window-close request
(`pygame.QUIT`) matters to the game. -/
inductive PEvent where
  | quitEv
  | otherEv
deriving DecidableEq

/-- `check_quit` (lines 437-447): true if the escape key is held, else true
if a `QUIT` event is among the events drained by its `pygame.event.get()`
call, else false. -/
def check_quit (keys : Keys) (events : List PEvent) : Bool :=
  if keys.escape then true else events.any (fun e => e = PEvent.quitEv)

/-- A `TextBullet` (lines 301-331). The rendered text's pixel size `w × h`
is content data from the host font renderer; `id` models Python object
identity (each constructed bullet is a distinct object, and `list.remove`
removes by equality, which for `TextBullet` is identity). -/
structure PBullet where
  id : ℕ
  x : ℚ
  y : ℚ
  vx : ℚ
  vy : ℚ
  w : ℤ
  h : ℤ
  hitbox : Rect
deriving DecidableEq

/-- `TextBullet.__init__` (lines 302-310): spawn at `x = -(w/2)`, with the
hitbox `Rect(int(x - w/2), int(y - h/2), w, h)`. -/
def mkBullet (id : ℕ) (y : ℤ) (speed : ℚ) (w h : ℤ) : PBullet :=
  let x : ℚ := -((w : ℚ) / 2)
  { id := id, x := x, y := (y : ℚ), vx := speed, vy := 0, w := w, h := h,
    hitbox := ⟨pytrunc (x - (w : ℚ) / 2), pytrunc ((y : ℚ) - (h : ℚ) / 2), w, h⟩ }

/-- `TextBullet.move` (lines 312-320). -/
def PBullet.move (b : PBullet) : PBullet :=
  let x := b.x + b.vx
  let y := b.y + b.vy
  { b with
    x := x
    y := y
    hitbox := ⟨pytrunc (x - (b.w : ℚ) / 2), pytrunc (y - (b.h : ℚ) / 2), b.w, b.h⟩ }

/-- A reference to an entity held by the mutable rosters `drawables` and
`movables` of `main` (lines 507-509): the single player object, the phase
timer variable, a wall (by index into the fixed wall list), the end zone, or
a spawned bullet (by identity). -/
inductive EntityRef where
  | playerR
  | timerR
  | wallR (i : ℕ)
  | endZoneR
  | bulletR (id : ℕ)
deriving DecidableEq

/-- The `timer` variable of `main`: initially the 20-second countdown
`Timer` (line 492), replaced by a `Stopwatch` on the phase change
(line 496). A `Stopwatch` (lines 364-386) carries its elapsed time. -/
inductive Clock where
  | timerC (t : Timer)
  | stopwatchC (time : ℚ)
deriving DecidableEq

/-- The maze layout, `walls` (lines 510-544), as hitbox rectangles
(`Wall.__init__`, line 395). -/
def walls : List Rect :=
  [⟨0, 100, 200, 20⟩, ⟨200, 100, 20, 100⟩, ⟨120, 200, 100, 20⟩,
   ⟨300, 100, 200, 20⟩, ⟨300, 180, 200, 20⟩, ⟨300, 180, 20, 120⟩,
   ⟨500, 100, 20, 100⟩, ⟨600, 100, 200, 20⟩, ⟨40, 100, 20, 120⟩,
   ⟨0, 280, 220, 20⟩, ⟨100, 380, 220, 20⟩, ⟨100, 380, 20, 100⟩,
   ⟨100, 480, 100, 20⟩, ⟨0, 380, 40, 20⟩, ⟨0, 450, 40, 20⟩,
   ⟨100, 560, 20, 100⟩, ⟨100, 560, 100, 20⟩, ⟨100, 560, 100, 20⟩,
   ⟨300, 400, 20, 120⟩, ⟨380, 480, 20, 120⟩, ⟨460, 380, 20, 220⟩,
   ⟨300, 380, 180, 20⟩, ⟨300, 280, 180, 20⟩, ⟨500, 180, 240, 20⟩,
   ⟨500, 180, 240, 20⟩, ⟨580, 180, 20, 140⟩, ⟨580, 180, 20, 180⟩,
   ⟨680, 260, 140, 20⟩, ⟨580, 340, 100, 20⟩, ⟨580, 440, 100, 20⟩,
   ⟨580, 440, 20, 180⟩, ⟨680, 340, 20, 120⟩, ⟨680, 520, 20, 140⟩]

/-- The goal zone, `end_zone = EndZone(600, 520, 80, 140)` (line 506). -/
def end_zone : Rect := ⟨600, 520, 80, 140⟩

/-- The mutable state owned by `main` (lines 450-546): the phase variable
`game_state` (`1`, `2`, `3` or `None`), the player, the `timer` variable,
the bullet spawn timer, the live bullet list and the drawable/movable
rosters. `next_id` supplies fresh bullet identities. -/
structure GameState where
  game_state : Option ℕ
  player : Player
  timer : Clock
  bullet_timer : Timer
  bullets : List PBullet
  drawables : List EntityRef
  movables : List EntityRef
  next_id : ℕ
deriving DecidableEq

/-- `on_state_change` (lines 494-504): replace `timer` with a new
`Stopwatch`, enable `show_sight`, clear the bullets, rebind the drawable
roster to `[player, *walls, end_zone, timer]` and the movable roster to
`[player]`, and set the player's position to `(50, 50)`. -/
def on_state_change (g : GameState) : GameState :=
  let timer := Clock.stopwatchC 0
  let player := { g.player with show_sight := true }
  let drawables :=
    EntityRef.playerR ::
      ((List.range walls.length).map EntityRef.wallR ++
        [EntityRef.endZoneR, EntityRef.timerR])
  let movables := [EntityRef.playerR]
  let player := { player with x := 50, y := 50 }
  { g with
    timer := timer
    player := player
    bullets := []
    drawables := drawables
    movables := movables }

/-- `change_state` (lines 459-463), the countdown timer's completion
callback: set `game_state` to `2`, then run `on_state_change`. -/
def change_state (g : GameState) : GameState :=
  on_state_change { g with game_state := some 2 }

/-- Per-frame input from the host library: the key snapshot, the events
drained by the loop's `pygame.event.clear()` (line 553) and the events then
drained by `check_quit`'s `pygame.event.get()` (line 442), the elapsed
milliseconds reported by each frame clock this frame, and the randomness
and text metrics consumed by a bullet spawn, if one happens. -/
structure FrameInput where
  keys : Keys
  eventsCleared : List PEvent
  events : List PEvent
  ms : ℕ
  spawnY : ℤ
  spawnSpeed : ℚ
  spawnW : ℤ
  spawnH : ℤ
deriving DecidableEq

/-- `spawn_bullet` (lines 465-474), the spawn timer's completion callback:
build a `TextBullet` from a random lane/speed/text, append it to the bullet,
drawable and movable rosters, and re-arm `bullet_timer` to `0.25` seconds. -/
def spawn_bullet (inp : FrameInput) (g : GameState) : GameState :=
  let b := mkBullet g.next_id inp.spawnY inp.spawnSpeed inp.spawnW inp.spawnH
  { g with
    bullets := g.bullets ++ [b]
    drawables := g.drawables ++ [EntityRef.bulletR b.id]
    movables := g.movables ++ [EntityRef.bulletR b.id]
    bullet_timer := ⟨1/4⟩
    next_id := g.next_id + 1 }

/-- `timer.tick()` at line 559, on either a countdown `Timer` (whose
`on_end` is `change_state`) or a `Stopwatch` (lines 382-386: the frame clock
is always ticked and the elapsed time accumulates). The `ℕ` result counts
frame-pacing calls (`fps_clock.tick`). -/
def tickClock (ms : ℕ) (g : GameState) : GameState × ℕ :=
  match g.timer with
  | .timerC t =>
    let calls : ℕ := if t.time > 0 then 1 else 0
    let r := t.tick ms
    let g2 := { g with timer := .timerC r.1 }
    (if r.2 then change_state g2 else g2, calls)
  | .stopwatchC s => ({ g with timer := .stopwatchC (s + (ms : ℚ) / 1000) }, 1)

/-- `bullet_timer.tick()` at line 562 (`on_end` is `spawn_bullet`), with the
frame-pacing call count. -/
def tickBulletTimer (inp : FrameInput) (g : GameState) : GameState × ℕ :=
  let calls : ℕ := if g.bullet_timer.time > 0 then 1 else 0
  let r := g.bullet_timer.tick inp.ms
  let g2 := { g with bullet_timer := r.1 }
  (if r.2 then spawn_bullet inp g2 else g2, calls)

/-- The wall-collision pass (lines 565-566): for each wall in order,
`player.is_colliding(wall, on_player_wall_collide)` (`Player.is_colliding`,
lines 292-294, fires the callback iff the hitboxes overlap). -/
def wallPass (g : GameState) : GameState :=
  let p2 := walls.foldl
    (fun p w => if p.hitbox.colliderect w then on_player_wall_collide p else p)
    g.player
  { g with player := p2 }

/-- `on_player_bullet_collide` (lines 476-482): remove the bullet (by
identity) from the bullet, movable and drawable rosters, then apply the
sight decrement. -/
def on_player_bullet_collide (g : GameState) (id : ℕ) : GameState :=
  { g with
    bullets := g.bullets.eraseP (fun b => b.id == id)
    movables := g.movables.erase (EntityRef.bulletR id)
    drawables := g.drawables.erase (EntityRef.bulletR id)
    player := hitSight g.player }

/-- Moving one roster entry (lines 570-571): the player and bullets are the
only `Movable`s the program ever places in `movables`. -/
def moveRef (g : GameState) : EntityRef → GameState
  | .playerR => { g with player := g.player.move }
  | .bulletR id =>
    { g with bullets := g.bullets.map (fun b => if b.id = id then b.move else b) }
  | .timerR => g
  | .wallR _ => g
  | .endZoneR => g

/-- The movement pass, `for moveable in movables: moveable.move()`
(lines 570-571). Moving never changes the rosters, so iterating the roster
list taken at entry is faithful. -/
def moveAll (g : GameState) : GameState := g.movables.foldl moveRef g

/-- Drawing one roster entry (lines 573-574): only the player's `draw`
changes state (sprite-cycle timers and the sight reveal); walls, bullets,
the end zone and the timer draw pure pixels. -/
def drawRef (ms : ℕ) (gc : GameState × ℕ) : EntityRef → GameState × ℕ
  | .playerR =>
    let s := gc.1.player.draw ms
    ({ gc.1 with player := s.1 }, gc.2 + s.2)
  | .timerR => gc
  | .wallR _ => gc
  | .endZoneR => gc
  | .bulletR _ => gc

/-- The drawing pass, `for drawable in drawables: drawable.draw(...)`
(lines 573-574), accumulating the frame-pacing call count. -/
def drawAll (ms : ℕ) (g : GameState) : GameState × ℕ :=
  g.drawables.foldl (drawRef ms) (g, 0)

/-- The bullet-collision pass, `for bullet in bullets: player.is_colliding(
bullet, on_player_bullet_collide)` (lines 576-577). CPython's list iterator
keeps a cursor index `i` into the live list object: it yields `bullets[i]`
while `i` is in range and increments `i`, so removing the current bullet
inside the callback shifts the remainder down and the old `i + 1` entry is
never yielded. The pass is modelled with that cursor; `fuel` only bounds
the iteration count, and `bullets.length` at entry suffices because the
cursor grows by one per step and the list never grows during the pass. The
second component records which bullets were yielded (checked). -/
def bulletPassAux : ℕ → GameState → ℕ → List ℕ → GameState × List ℕ
  | 0, g, _, checked => (g, checked)
  | fuel + 1, g, i, checked =>
    match g.bullets[i]? with
    | none => (g, checked)
    | some b =>
      let g2 := if g.player.hitbox.colliderect b.hitbox
        then on_player_bullet_collide g b.id else g
      bulletPassAux fuel g2 (i + 1) (checked ++ [b.id])

/-- The bullet-collision pass as run by the loop. -/
def bulletPass (g : GameState) : GameState × List ℕ :=
  bulletPassAux g.bullets.length g 0 []

/-- One iteration of the `while game_state is not None` loop body
(lines 548-586), with the per-frame input made explicit. In order: key
snapshot; surface fill (pure); `pygame.event.clear()` (drops
`inp.eventsCleared`); the quit check (sets `game_state` to `None`);
`timer.tick()`; the spawn-timer tick when `game_state == 1`; the wall pass
when `game_state == 2`; `player.key_move`; the movement pass; the drawing
pass; the bullet-collision pass; the end-zone check when `game_state == 2`
(`on_player_end_collide`, lines 488-490, sets `game_state` to `3`); the
finish step when `game_state == 3`. The `ℕ` result counts the blocking
frame-pacing calls (`pygame.time.Clock.tick`) made during the frame. -/
def frameStep (inp : FrameInput) (g : GameState) : GameState × ℕ :=
  let g := if check_quit inp.keys inp.events then { g with game_state := none } else g
  let r1 := tickClock inp.ms g
  let g := r1.1
  let r2 := if g.game_state = some 1 then tickBulletTimer inp g else (g, 0)
  let g := r2.1
  let g := if g.game_state = some 2 then wallPass g else g
  let g := { g with player := g.player.key_move inp.keys }
  let g := moveAll g
  let r3 := drawAll inp.ms g
  let g := r3.1
  let g := (bulletPass g).1
  let g := if g.game_state = some 2 then
      (if g.player.hitbox.colliderect end_zone then { g with game_state := some 3 } else g)
    else g
  let g := if g.game_state = some 3 then { g with game_state := none } else g
  (g, r1.2 + r2.2 + r3.2)

/-- The player constructed by `main` (line 457). -/
def mainPlayer : Player := Player.init 200 200 ⟨1/4, 1/4⟩

/-- The initial loop state built by `main` (lines 450-546): phase `1`, the
20-second countdown timer, a 2-second initial spawn delay, no bullets,
drawables `[player, timer]`, movables `[player]`. -/
def initGameState : GameState :=
  { game_state := some 1, player := mainPlayer, timer := .timerC ⟨20⟩,
    bullet_timer := ⟨2⟩, bullets := [], drawables := [.playerR, .timerR],
    movables := [.playerR], next_id := 0 }

/-- Running the loop's per-frame player update (`key_move` then `move`,
lines 568-571) over a sequence of key snapshots. -/
def runFrames (p : Player) (inputs : List Keys) : Player :=
  inputs.foldl (fun q k => (q.key_move k).move) p

/-- An interleaving of the two operations that touch the player's `sight`:
`true` is one execution of the sight-reveal step of `Player.draw`
(lines 269-273), `false` is one projectile-hit decrement (lines 481-482). -/
def sightRun (evs : List Bool) (p : Player) : Player :=
  evs.foldl (fun q e => if e then q.drawSight else hitSight q) p

/-- An interleaving reachable during the Countdown phase: five frames of the
reveal (sight 0 → 0.10), one projectile hit (sight 0.10 → 0.05), then 48
more frames of the reveal. -/
def overshootEvents : List Bool :=
  List.replicate 5 true ++ [false] ++ List.replicate 48 true

/-- A bullet overlapping the player used by the C4 counterexample. -/
def cexBullet0 : PBullet :=
  { id := 0, x := 400, y := 300, vx := 2, vy := 0, w := 10, h := 10,
    hitbox := ⟨395, 295, 10, 10⟩ }

/-- A second, identical bullet (distinct identity). -/
def cexBullet1 : PBullet := { cexBullet0 with id := 1 }

/-- A Countdown-phase loop state with two live bullets, both overlapping the
player. -/
def cexTwoBulletState : GameState :=
  { game_state := some 1, player := Player.init 400 300 ⟨1/4, 1/4⟩,
    timer := .timerC ⟨20⟩, bullet_timer := ⟨2⟩,
    bullets := [cexBullet0, cexBullet1],
    drawables := [.playerR, .timerR, .bulletR 0, .bulletR 1],
    movables := [.playerR, .bulletR 0, .bulletR 1], next_id := 2 }

/-- A bullet far from the player (hitbox `⟨700, 100, 10, 10⟩`). -/
def farBullet : PBullet :=
  { id := 0, x := 705, y := 105, vx := 2, vy := 0, w := 10, h := 10,
    hitbox := ⟨700, 100, 10, 10⟩ }

/-- A Countdown-phase loop state with one live bullet that does not overlap
the player. -/
def farBulletState : GameState :=
  { game_state := some 1, player := mainPlayer, timer := .timerC ⟨20⟩,
    bullet_timer := ⟨2⟩, bullets := [farBullet],
    drawables := [.playerR, .timerR, .bulletR 0],
    movables := [.playerR, .bulletR 0], next_id := 1 }

/-- A Countdown-phase loop state whose player is drifting right at the
maximum speed, used by the C2 counterexample. -/
def cexQuitState : GameState :=
  { initGameState with player := { mainPlayer with velocity_vector := ⟨3, 0⟩ } }

/-- A frame input with the escape key held and no window events. -/
def escapeInput : FrameInput :=
  { keys := ⟨false, false, false, false, true⟩, eventsCleared := [], events := [],
    ms := 16, spawnY := 100, spawnSpeed := 2, spawnW := 100, spawnH := 12 }

/-- A frame input with no keys held and no window events. -/
def idleInput : FrameInput :=
  { keys := ⟨false, false, false, false, false⟩, eventsCleared := [], events := [],
    ms := 16, spawnY := 100, spawnSpeed := 2, spawnW := 100, spawnH := 12 }

/-- A Countdown-phase loop state with one live bullet overlapping the player
and the player's sight at 0.5, used by the C5 witness. -/
def hitWitnessState : GameState :=
  { game_state := some 1, player := { Player.init 400 300 ⟨1/4, 1/4⟩ with sight := 1/2 },
    timer := .timerC ⟨20⟩, bullet_timer := ⟨2⟩, bullets := [cexBullet0],
    drawables := [.playerR, .timerR, .bulletR 0],
    movables := [.playerR, .bulletR 0], next_id := 1 }

/-! Theorems. -/

theorem ite_vec_x (P : Prop) [Decidable P] (a b : Vec) :
    (if P then a else b).x = if P then a.x else b.x := by
  split_ifs <;> rfl

theorem ite_vec_y (P : Prop) [Decidable P] (a b : Vec) :
    (if P then a else b).y = if P then a.y else b.y := by
  split_ifs <;> rfl

/-- C1 counterexample: a `Timer` initialized to 1 second and ticked twice,
first with 2000ms elapsed (expiring it) and then again, invokes its
completion callback on both ticks — not exactly once: the class keeps no
"already fired" flag, so an expired timer re-fires on every further tick. -/
theorem c1_timer_refires_cex :
    (Timer.run ⟨1⟩ [2000, 16]).2 = 2 ∧ ¬ (Timer.run ⟨1⟩ [2000, 16]).2 = 1 := by
  norm_num [Timer.run, Timer.tick]

/-- C1 amended: a `Timer`'s remaining time is non-increasing from tick to
tick, and its completion callback fires on exactly those ticks whose
post-tick remaining time is `≤ 0` — hence on the first tick at which the
remaining time reaches `≤ 0` and again on every subsequent tick; the class
itself has no inert state (in this program every completion callback
replaces the ticked timer reference, so the re-fire is not reached). -/
theorem c1_timer_tick_spec (t : Timer) (ms : ℕ) :
    (t.tick ms).1.time ≤ t.time ∧ ((t.tick ms).2 = true ↔ (t.tick ms).1.time ≤ 0) := by
  constructor
  · by_cases h : t.time > 0
    · have h0 : (0 : ℚ) ≤ (ms : ℚ) / 1000 := by positivity
      simp only [Timer.tick, if_pos h]
      linarith
    · simp only [Timer.tick, if_neg h, le_refl]
  · simp only [Timer.tick, decide_eq_true_eq]

theorem clampStep_x_eq (v : Vec) (vx vy : ℚ) :
    (clampStep v vx vy).x = if vx < -3 then -3 else if vx > 3 then 3 else v.x := by
  simp only [clampStep, MAX_SPEED, Vec.set_x_vector, Vec.set_y_vector, ite_vec_x, ite_self]

theorem clampStep_y_eq (v : Vec) (vx vy : ℚ) :
    (clampStep v vx vy).y = if vy < -3 then -3 else if vy > 3 then 3 else v.y := by
  simp only [clampStep, MAX_SPEED, Vec.set_x_vector, Vec.set_y_vector, ite_vec_y, ite_self]

theorem frictionStep_x_eq (v : Vec) (vx vy : ℚ) :
    (frictionStep v vx vy).x =
      if vx < 0 then v.x + 1/20 else if vx > 0 then v.x - 1/20 else v.x := by
  simp only [frictionStep, FRICTION_VECTOR, Vec.sub, Vec.add, Vec.get_x_vector,
    Vec.get_y_vector, ite_vec_x, sub_zero, ite_self]
  split_ifs <;> first | rfl | linarith

theorem frictionStep_y_eq (v : Vec) (vx vy : ℚ) :
    (frictionStep v vx vy).y =
      if vy < 0 then v.y + 1/20 else if vy > 0 then v.y - 1/20 else v.y := by
  simp only [frictionStep, FRICTION_VECTOR, Vec.sub, Vec.add, Vec.get_x_vector,
    Vec.get_y_vector, ite_vec_y, sub_zero, ite_self]
  split_ifs <;> first | rfl | linarith

theorem deadbandStep_x_eq (v : Vec) :
    (deadbandStep v).x = if -(1/20) < v.x ∧ v.x < 1/20 then 0 else v.x := by
  simp only [deadbandStep, Vec.set_x_vector, Vec.set_y_vector, ite_vec_x, ite_self]

theorem deadbandStep_y_eq (v : Vec) :
    (deadbandStep v).y = if -(1/20) < v.y ∧ v.y < 1/20 then 0 else v.y := by
  simp only [deadbandStep, Vec.set_x_vector, Vec.set_y_vector, ite_vec_y, ite_vec_x,
    ite_self]

theorem key_move_velocity_eq (p : Player) (keys : Keys) :
    (p.key_move keys).velocity_vector =
      deadbandStep
        (frictionStep
          (clampStep (accelStep p.velocity_vector p.acceleration_vector keys)
            (accelStep p.velocity_vector p.acceleration_vector keys).x
            (accelStep p.velocity_vector p.acceleration_vector keys).y)
          (accelStep p.velocity_vector p.acceleration_vector keys).x
          (accelStep p.velocity_vector p.acceleration_vector keys).y) := rfl

theorem pipeline_x_bound (s : Vec) :
    -3 ≤ (deadbandStep (frictionStep (clampStep s s.x s.y) s.x s.y)).x ∧
      (deadbandStep (frictionStep (clampStep s s.x s.y) s.x s.y)).x ≤ 3 := by
  rw [deadbandStep_x_eq, frictionStep_x_eq, clampStep_x_eq]
  split_ifs <;> constructor <;> linarith

theorem pipeline_y_bound (s : Vec) :
    -3 ≤ (deadbandStep (frictionStep (clampStep s s.x s.y) s.x s.y)).y ∧
      (deadbandStep (frictionStep (clampStep s s.x s.y) s.x s.y)).y ≤ 3 := by
  rw [deadbandStep_y_eq, frictionStep_y_eq, clampStep_y_eq]
  split_ifs <;> constructor <;> linarith

theorem key_move_x_bound (p : Player) (keys : Keys) :
    -3 ≤ (p.key_move keys).velocity_vector.x ∧ (p.key_move keys).velocity_vector.x ≤ 3 := by
  rw [key_move_velocity_eq]
  exact pipeline_x_bound _

theorem key_move_y_bound (p : Player) (keys : Keys) :
    -3 ≤ (p.key_move keys).velocity_vector.y ∧ (p.key_move keys).velocity_vector.y ≤ 3 := by
  rw [key_move_velocity_eq]
  exact pipeline_y_bound _

/-- C6: for every key snapshot and every starting velocity within bounds,
after `key_move` both velocity components stay within `±MAX_SPEED`. -/
theorem c6_key_move_velocity_clamped (p : Player) (keys : Keys)
    (hx1 : -MAX_SPEED ≤ p.velocity_vector.x) (hx2 : p.velocity_vector.x ≤ MAX_SPEED)
    (hy1 : -MAX_SPEED ≤ p.velocity_vector.y) (hy2 : p.velocity_vector.y ≤ MAX_SPEED) :
    -MAX_SPEED ≤ (p.key_move keys).velocity_vector.x ∧
      (p.key_move keys).velocity_vector.x ≤ MAX_SPEED ∧
      -MAX_SPEED ≤ (p.key_move keys).velocity_vector.y ∧
      (p.key_move keys).velocity_vector.y ≤ MAX_SPEED := by
  rw [MAX_SPEED]
  exact ⟨(key_move_x_bound p keys).1, (key_move_x_bound p keys).2,
    (key_move_y_bound p keys).1, (key_move_y_bound p keys).2⟩

/-- C6 witness. -/
theorem c6_key_move_velocity_clamped_witness :
    -MAX_SPEED ≤ (mainPlayer.key_move ⟨true, false, false, true, false⟩).velocity_vector.x ∧
      (mainPlayer.key_move ⟨true, false, false, true, false⟩).velocity_vector.x ≤ MAX_SPEED ∧
      -MAX_SPEED ≤ (mainPlayer.key_move ⟨true, false, false, true, false⟩).velocity_vector.y ∧
      (mainPlayer.key_move ⟨true, false, false, true, false⟩).velocity_vector.y ≤ MAX_SPEED :=
  c6_key_move_velocity_clamped mainPlayer ⟨true, false, false, true, false⟩
    (by norm_num [mainPlayer, Player.init, MAX_SPEED])
    (by norm_num [mainPlayer, Player.init, MAX_SPEED])
    (by norm_num [mainPlayer, Player.init, MAX_SPEED])
    (by norm_num [mainPlayer, Player.init, MAX_SPEED])

theorem move_x_bounds (q : Player) : 24 ≤ q.move.x ∧ q.move.x ≤ 776 := by
  simp only [Player.move, WIDTH, GAME_WIDTH]
  split_ifs <;> constructor <;> linarith

theorem move_y_bounds (q : Player) : 24 ≤ q.move.y ∧ q.move.y ≤ 576 := by
  simp only [Player.move, HEIGHT, GAME_HEIGHT]
  split_ifs <;> constructor <;> linarith

theorem move_hitbox_eq (q : Player) : q.move.hitbox = playerRect q.move.x q.move.y := rfl

theorem pytrunc_bounds_of_nonneg (q : ℚ) (b : ℤ) (h0 : 0 ≤ q) (hb : q ≤ (b : ℚ)) :
    0 ≤ pytrunc q ∧ pytrunc q ≤ b := by
  rw [pytrunc, if_pos h0]
  refine ⟨Int.floor_nonneg.mpr h0, ?_⟩
  have h2 := Int.floor_le_floor hb
  simpa using h2

theorem move_hitbox_in_bounds (q : Player) :
    0 ≤ q.move.hitbox.x ∧ q.move.hitbox.x + q.move.hitbox.w ≤ 800 ∧
      0 ≤ q.move.hitbox.y ∧ q.move.hitbox.y + q.move.hitbox.h ≤ 600 := by
  obtain ⟨hx1, hx2⟩ := move_x_bounds q
  obtain ⟨hy1, hy2⟩ := move_y_bounds q
  rw [move_hitbox_eq]
  simp only [playerRect, WIDTH, HEIGHT]
  norm_num
  obtain ⟨h1, h2⟩ := pytrunc_bounds_of_nonneg (q.move.x - 24) 752 (by linarith)
    (by push_cast; linarith)
  obtain ⟨h3, h4⟩ := pytrunc_bounds_of_nonneg (q.move.y - 24) 552 (by linarith)
    (by push_cast; linarith)
  refine ⟨h1, by omega, h3, by omega⟩

/-- C7: for every starting player state, every input sequence and every
further key snapshot — that is, after each call to `move()` on any frame —
the player's hitbox lies fully within the `[0,800] × [0,600]` playfield. -/
theorem c7_hitbox_in_playfield (p : Player) (inputs : List Keys) (k : Keys) :
    0 ≤ (runFrames p (inputs ++ [k])).hitbox.x ∧
      (runFrames p (inputs ++ [k])).hitbox.x + (runFrames p (inputs ++ [k])).hitbox.w ≤ 800 ∧
      0 ≤ (runFrames p (inputs ++ [k])).hitbox.y ∧
      (runFrames p (inputs ++ [k])).hitbox.y + (runFrames p (inputs ++ [k])).hitbox.h ≤ 600 := by
  rw [runFrames, List.foldl_append]
  exact move_hitbox_in_bounds _

theorem draw_sight_eq (p : Player) (ms : ℕ) :
    (p.draw ms).1.sight = p.drawSight.sight ∧
      (p.draw ms).1.is_playing_animation = p.drawSight.is_playing_animation := by
  simp only [Player.draw, Player.drawSight]
  split_ifs <;> simp_all

/-- C8 counterexample: starting from the freshly constructed player
(sight 0, reveal playing), the interleaving `overshootEvents` — five reveal
frames, one projectile hit, then 48 more reveal frames — drives `sight` to
1.01, outside `[0, 1]`: the reveal step increments whenever `sight < 1`, so
from 0.99 it reaches `0.99 + 0.02 = 1.01` before the clamp can run. -/
theorem c8_sight_exceeds_one_cex :
    (sightRun overshootEvents mainPlayer).sight = 101/100 ∧
      ¬ (sightRun overshootEvents mainPlayer).sight ≤ 1 := by
  norm_num [sightRun, overshootEvents, List.replicate, Player.drawSight, hitSight,
    mainPlayer, Player.init]

theorem sight_inv_step (p : Player) (e : Bool) (n : ℕ) (hn : n ≤ 101)
    (hs : p.sight = (n : ℚ) / 100) :
    ∃ m : ℕ, m ≤ 101 ∧
      (if e then p.drawSight else hitSight p).sight = (m : ℚ) / 100 := by
  cases e with
  | true =>
    simp only [if_pos]
    rw [Player.drawSight]
    by_cases h1 : p.sight < 1 ∧ p.is_playing_animation
    · rw [if_pos h1]
      have hlt : (n : ℚ) < 100 := by rw [hs] at h1; linarith [h1.1]
      have hn99 : n ≤ 99 := by exact_mod_cast Nat.lt_succ_iff.mp (by exact_mod_cast hlt)
      refine ⟨n + 2, by omega, ?_⟩
      simp only [hs]
      push_cast
      ring
    · rw [if_neg h1]
      by_cases h2 : 1 ≤ p.sight ∧ p.is_playing_animation
      · rw [if_pos h2]
        exact ⟨100, by omega, by norm_num⟩
      · rw [if_neg h2]
        exact ⟨n, hn, hs⟩
  | false =>
    simp only [Bool.false_eq_true, if_false]
    rw [hitSight]
    by_cases h : 1/10 ≤ p.sight
    · rw [if_pos h]
      have h10 : 10 ≤ n := by
        rw [hs] at h
        have : (10 : ℚ) ≤ (n : ℚ) := by linarith
        exact_mod_cast this
      refine ⟨n - 5, by omega, ?_⟩
      simp only [hs]
      have hc : ((n - 5 : ℕ) : ℚ) = (n : ℚ) - 5 := by
        push_cast [Nat.cast_sub (by omega : 5 ≤ n)]
        ring
      rw [hc]
      ring
    · rw [if_neg h]
      exact ⟨n, hn, hs⟩

theorem sight_run_inv (evs : List Bool) (p : Player) (n : ℕ) (hn : n ≤ 101)
    (hs : p.sight = (n : ℚ) / 100) :
    ∃ m : ℕ, m ≤ 101 ∧ (sightRun evs p).sight = (m : ℚ) / 100 := by
  induction evs generalizing p n with
  | nil => exact ⟨n, hn, hs⟩
  | cons e rest ih =>
    obtain ⟨m, hm, hm2⟩ := sight_inv_step p e n hn hs
    exact ih (if e then p.drawSight else hitSight p) m hm hm2

/-- C8 amended: under every interleaving of reveal steps and projectile-hit
decrements starting from the freshly constructed player, `sight` stays
within `[0, 1.01]` — it never goes below 0, but it can transiently reach
1.01 (one increment above 1), so `[0, 1]` as claimed does not hold;
a reveal step seeing `sight ≥ 1` with the is-playing flag set clamps sight
to exactly 1 and clears the flag, and once the flag is cleared a reveal
step changes nothing, so the reveal still plays only once per life. -/
theorem c8_sight_bounds (evs : List Bool) :
    (0 ≤ (sightRun evs mainPlayer).sight ∧ (sightRun evs mainPlayer).sight ≤ 101/100) ∧
      (∀ p : Player, p.is_playing_animation = false → p.drawSight = p) ∧
      (∀ p : Player, 1 ≤ p.sight → p.is_playing_animation = true →
        p.drawSight.sight = 1 ∧ p.drawSight.is_playing_animation = false) := by
  refine ⟨?_, ?_, ?_⟩
  · obtain ⟨m, hm, hs⟩ := sight_run_inv evs mainPlayer 0 (by omega) (by
      norm_num [mainPlayer, Player.init])
    rw [hs]
    have hc : (m : ℚ) ≤ 101 := by exact_mod_cast hm
    constructor
    · positivity
    · linarith
  · intro p h
    simp [Player.drawSight, h]
  · intro p h1 h2
    rw [Player.drawSight, if_neg (by rintro ⟨hlt, _⟩; linarith), if_pos ⟨h1, h2⟩]
    exact ⟨rfl, rfl⟩

/-- C9 counterexample: a player at (300, 300) whose hitbox is
`Rect(276, 276, 48, 48)` is teleported by the wall-collision callback to
(50, 50), but its hitbox is left at `Rect(276, 276, 48, 48)` — the hitbox
center no longer equals the player's position after this
position-changing operation. -/
theorem c9_teleport_stale_hitbox_cex :
    (on_player_wall_collide (Player.init 300 300 ⟨1/4, 1/4⟩)).x = 50 ∧
      (on_player_wall_collide (Player.init 300 300 ⟨1/4, 1/4⟩)).hitbox =
        ⟨276, 276, 48, 48⟩ ∧
      ¬ (((on_player_wall_collide (Player.init 300 300 ⟨1/4, 1/4⟩)).hitbox.x : ℚ) + 24 =
        (on_player_wall_collide (Player.init 300 300 ⟨1/4, 1/4⟩)).x) := by
  refine ⟨rfl, ?_, ?_⟩
  · simp only [on_player_wall_collide, Player.init, playerRect, pytrunc, WIDTH, HEIGHT]
    norm_num
  · simp only [on_player_wall_collide, Player.init, playerRect, pytrunc, WIDTH, HEIGHT]
    norm_num

/-- C9 amended: the player's hitbox is always exactly 48 × 48; `__init__`
and `move()` place its top-left at `(int(x - 24), int(y - 24))` (so its
center equals `(x, y)` exactly when those offsets are whole numbers), but
the wall-collision teleport sets the position to (50, 50) without updating
the hitbox, which keeps its pre-teleport rectangle until the next `move()`. -/
theorem c9_hitbox_spec (p : Player) (x y : ℚ) (a : Vec) :
    (Player.init x y a).hitbox = playerRect x y ∧
      p.move.hitbox = playerRect p.move.x p.move.y ∧
      (on_player_wall_collide p).hitbox = p.hitbox ∧
      (on_player_wall_collide p).x = 50 ∧ (on_player_wall_collide p).y = 50 ∧
      (playerRect x y).w = 48 ∧ (playerRect x y).h = 48 :=
  ⟨rfl, rfl, rfl, rfl, rfl, rfl, rfl⟩

/-- C3: for every loop state, the countdown timer's completion callback
`change_state` produces exactly the claimed post-state: phase Navigation,
no live projectiles in any roster, the drawable roster exactly
`[player, *walls, end_zone, stopwatch]`, the movable roster exactly
`[player]`, a brand-new stopwatch at 0, `show_sight` enabled, and the
player's position reset to (50, 50). -/
theorem c3_state_change_roster_swap (g : GameState) :
    (change_state g).game_state = some 2 ∧
      (change_state g).bullets = [] ∧
      (change_state g).movables = [EntityRef.playerR] ∧
      (change_state g).drawables =
        EntityRef.playerR ::
          ((List.range walls.length).map EntityRef.wallR ++
            [EntityRef.endZoneR, EntityRef.timerR]) ∧
      (change_state g).timer = Clock.stopwatchC 0 ∧
      (change_state g).player.show_sight = true ∧
      (change_state g).player.x = 50 ∧ (change_state g).player.y = 50 ∧
      (∀ id : ℕ, EntityRef.bulletR id ∉ (change_state g).movables ∧
        EntityRef.bulletR id ∉ (change_state g).drawables) := by
  refine ⟨rfl, rfl, rfl, rfl, rfl, rfl, rfl, rfl, ?_⟩
  intro id
  constructor
  · simp [change_state, on_state_change]
  · simp [change_state, on_state_change]

theorem countP_le_one_eraseP {α : Type} (q : α → Bool) (l : List α)
    (h : l.countP q ≤ 1) : ∀ b ∈ l.eraseP q, ¬ q b = true := by
  induction l with
  | nil => simp
  | cons a rest ih =>
    by_cases ha : q a = true
    · rw [List.eraseP_cons_of_pos ha]
      rw [List.countP_cons_of_pos _ _ ha] at h
      have h0 : rest.countP q = 0 := by omega
      intro b hb
      exact List.countP_eq_zero.mp h0 b hb
    · rw [List.eraseP_cons_of_neg (by simpa using ha)]
      rw [List.countP_cons_of_neg _ _ (by simpa using ha)] at h
      intro b hb
      rcases List.mem_cons.mp hb with hba | hbr
      · subst hba; exact ha
      · exact ih h b hbr

theorem count_one_erase_not_mem {α : Type} [DecidableEq α] (a : α) (l : List α)
    (h : l.count a = 1) : a ∉ l.erase a := by
  have h2 := List.count_erase_self a l
  rw [h] at h2
  exact List.count_eq_zero.mp (by omega)

/-- C5: when the player collides with a projectile, the collision callback
removes that projectile from the bullet, movable and drawable rosters; if
the player's sight is at least 0.1 it decreases by exactly 0.05 (0.5
becomes 0.45), and if it is below 0.1 (for example 0.08) it is unchanged. -/
theorem c5_bullet_collision_effects (g : GameState) (id : ℕ)
    (h1 : g.bullets.countP (fun b => b.id == id) = 1)
    (h2 : g.movables.count (EntityRef.bulletR id) = 1)
    (h3 : g.drawables.count (EntityRef.bulletR id) = 1) :
    (∀ b ∈ (on_player_bullet_collide g id).bullets, b.id ≠ id) ∧
      EntityRef.bulletR id ∉ (on_player_bullet_collide g id).movables ∧
      EntityRef.bulletR id ∉ (on_player_bullet_collide g id).drawables ∧
      (1/10 ≤ g.player.sight →
        (on_player_bullet_collide g id).player.sight = g.player.sight - 1/20) ∧
      (g.player.sight < 1/10 →
        (on_player_bullet_collide g id).player.sight = g.player.sight) ∧
      (g.player.sight = 1/2 → (on_player_bullet_collide g id).player.sight = 9/20) ∧
      (g.player.sight = 2/25 → (on_player_bullet_collide g id).player.sight = 2/25) := by
  have hp : (on_player_bullet_collide g id).player = hitSight g.player := rfl
  have hss : ∀ q : Player,
      (hitSight q).sight = if 1/10 ≤ q.sight then q.sight - 1/20 else q.sight := by
    intro q
    rw [hitSight]
    split_ifs <;> rfl
  refine ⟨?_, ?_, ?_, ?_, ?_, ?_, ?_⟩
  · intro b hb
    have hb2 : b ∈ g.bullets.eraseP (fun b => b.id == id) := hb
    have hq := countP_le_one_eraseP (fun b => b.id == id) g.bullets (by omega) b hb2
    simpa using hq
  · exact count_one_erase_not_mem _ _ h2
  · exact count_one_erase_not_mem _ _ h3
  · intro h
    rw [hp, hss, if_pos h]
  · intro h
    rw [hp, hss, if_neg (by linarith)]
  · intro h
    rw [hp, hss, h]
    norm_num
  · intro h
    rw [hp, hss, h]
    norm_num

/-- C5 witness: at the concrete Countdown state `hitWitnessState` (one live
bullet, player sight 0.5), the collision callback empties the rosters of
the bullet and the sight moves from 0.5 by exactly 0.05. -/
theorem c5_bullet_collision_effects_witness :
    (∀ b ∈ (on_player_bullet_collide hitWitnessState 0).bullets, b.id ≠ 0) ∧
      EntityRef.bulletR 0 ∉ (on_player_bullet_collide hitWitnessState 0).movables ∧
      EntityRef.bulletR 0 ∉ (on_player_bullet_collide hitWitnessState 0).drawables ∧
      (1/10 ≤ hitWitnessState.player.sight →
        (on_player_bullet_collide hitWitnessState 0).player.sight =
          hitWitnessState.player.sight - 1/20) ∧
      (hitWitnessState.player.sight < 1/10 →
        (on_player_bullet_collide hitWitnessState 0).player.sight =
          hitWitnessState.player.sight) ∧
      (hitWitnessState.player.sight = 1/2 →
        (on_player_bullet_collide hitWitnessState 0).player.sight = 9/20) ∧
      (hitWitnessState.player.sight = 2/25 →
        (on_player_bullet_collide hitWitnessState 0).player.sight = 2/25) :=
  c5_bullet_collision_effects hitWitnessState 0
    (by simp [hitWitnessState, cexBullet0])
    (by simp [hitWitnessState])
    (by simp [hitWitnessState])

theorem bulletPassAux_no_collision (fuel : ℕ) (g : GameState) (i : ℕ) (checked : List ℕ)
    (hnc : ∀ b ∈ g.bullets, g.player.hitbox.colliderect b.hitbox = false)
    (hfi : i + fuel = g.bullets.length) :
    bulletPassAux fuel g i checked =
      (g, checked ++ (g.bullets.drop i).map PBullet.id) := by
  induction fuel generalizing i checked with
  | zero =>
    rw [bulletPassAux]
    have hd : g.bullets.drop i = [] := List.drop_eq_nil_of_le (by omega)
    simp [hd]
  | succ fuel ih =>
    rw [bulletPassAux]
    have hi : i < g.bullets.length := by omega
    rw [List.getElem?_eq_getElem hi]
    simp only
    have hb := hnc g.bullets[i] (List.getElem_mem hi)
    rw [if_neg (by simp [hb])]
    rw [ih (i + 1) (checked ++ [g.bullets[i].id]) (by omega)]
    have hmi : i < (g.bullets.map PBullet.id).length := by simpa using hi
    have hdrop2 : (g.bullets.map PBullet.id).drop i =
        (g.bullets.map PBullet.id)[i] :: (g.bullets.map PBullet.id).drop (i + 1) :=
      List.drop_eq_getElem_cons hmi
    simp [hdrop2]

/-- C4 amended: on every frame whose projectile-collision pass removes no
projectile (no projectile overlaps the player), every projectile live at
the start of the pass is collision-checked against the player; but when a
projectile is removed by a collision mid-pass, the projectile occupying the
next position of the live list is skipped for that frame (the list is
mutated under the iterator's cursor), so the claim's parenthetical case
fails. -/
theorem c4_all_checked_when_no_removal (g : GameState)
    (hnc : ∀ b ∈ g.bullets, g.player.hitbox.colliderect b.hitbox = false) :
    (bulletPass g).2 = g.bullets.map PBullet.id ∧ (bulletPass g).1 = g := by
  rw [bulletPass, bulletPassAux_no_collision _ _ _ _ hnc (by omega)]
  simp

/-- C4 witness for the amended claim: in the concrete Countdown state
`farBulletState` (one live bullet, not overlapping the player), the pass
checks every live bullet and removes none. -/
theorem c4_all_checked_when_no_removal_witness :
    (bulletPass farBulletState).2 = farBulletState.bullets.map PBullet.id ∧
      (bulletPass farBulletState).1 = farBulletState :=
  c4_all_checked_when_no_removal farBulletState (by
    intro b hb
    have hbox : mainPlayer.hitbox = ⟨176, 176, 48, 48⟩ := by
      norm_num [mainPlayer, Player.init, playerRect, pytrunc, WIDTH, HEIGHT]
    have hb2 : b = farBullet := by simpa [farBulletState] using hb
    subst hb2
    simp only [farBulletState, hbox]
    simp [farBullet, Rect.colliderect])

/-- C4 counterexample: in the concrete Countdown state `cexTwoBulletState`,
both live bullets overlap the player at the start of the pass, yet the pass
only checks bullet 0 — removing it shifts bullet 1 under the iterator's
cursor, so bullet 1 is never collision-checked that frame and stays live. -/
theorem c4_skipped_bullet_cex :
    cexTwoBulletState.bullets.map PBullet.id = [0, 1] ∧
      cexTwoBulletState.player.hitbox.colliderect cexBullet1.hitbox = true ∧
      (bulletPass cexTwoBulletState).2 = [0] ∧
      (bulletPass cexTwoBulletState).1.bullets.map PBullet.id = [1] := by
  have hbox : (Player.init 400 300 ⟨1/4, 1/4⟩).hitbox = ⟨376, 276, 48, 48⟩ := by
    norm_num [Player.init, playerRect, pytrunc, WIDTH, HEIGHT]
  refine ⟨by simp [cexTwoBulletState, cexBullet0, cexBullet1], ?_, ?_, ?_⟩
  · show (Player.init 400 300 ⟨1/4, 1/4⟩).hitbox.colliderect cexBullet1.hitbox = true
    rw [hbox]
    norm_num [cexBullet1, cexBullet0, Rect.colliderect]
  · norm_num [bulletPass, bulletPassAux, cexTwoBulletState, cexBullet0, cexBullet1,
      Player.init, playerRect, pytrunc, WIDTH, HEIGHT, on_player_bullet_collide,
      hitSight, Rect.colliderect, List.eraseP, List.erase]
  · norm_num [bulletPass, bulletPassAux, cexTwoBulletState, cexBullet0, cexBullet1,
      Player.init, playerRect, pytrunc, WIDTH, HEIGHT, on_player_bullet_collide,
      hitSight, Rect.colliderect, List.eraseP, List.erase]

theorem cycle_tick_calls (c : Cycle) (ms : ℕ) :
    (c.tick ms).2 = if c.timer.time > 0 then 1 else 0 := by
  rw [Cycle.tick]
  split_ifs <;> rfl

theorem draw_calls_eq_length (p : Player) (ms : ℕ)
    (h : ∀ c ∈ p.sprites, 0 < c.timer.time) :
    (p.draw ms).2 = p.sprites.length := by
  rw [Player.draw]
  have aux : ∀ (l : List Cycle) (acc : List Cycle × ℕ), (∀ c ∈ l, 0 < c.timer.time) →
      (l.foldl (fun (a : List Cycle × ℕ) c =>
        let s := c.tick ms
        (a.1 ++ [s.1], a.2 + s.2)) acc).2 = acc.2 + l.length := by
    intro l
    induction l with
    | nil => intro acc _; simp
    | cons c rest ih =>
      intro acc hl
      rw [List.foldl_cons]
      have hc : (c.tick ms).2 = 1 := by
        rw [cycle_tick_calls, if_pos (hl c (List.mem_cons_self c rest))]
      rw [ih _ (fun d hd => hl d (List.mem_cons_of_mem c hd))]
      simp only [hc, List.length_cons]
      omega
  simpa using aux p.sprites ([], 0) h

theorem draw_x_eq (p : Player) (ms : ℕ) : ((p.draw ms).1).x = p.x := by
  simp only [Player.draw, Player.drawSight]
  split_ifs <;> rfl

theorem moveRef_playerR (g : GameState) :
    moveRef g .playerR = { g with player := g.player.move } := by
  simp only [moveRef]

theorem drawRef_playerR (ms : ℕ) (gc : GameState × ℕ) :
    drawRef ms gc .playerR =
      ({ gc.1 with player := (gc.1.player.draw ms).1 },
        gc.2 + (gc.1.player.draw ms).2) := by
  simp only [drawRef]

theorem drawRef_timerR (ms : ℕ) (gc : GameState × ℕ) : drawRef ms gc .timerR = gc := by
  simp only [drawRef]

theorem quit_frame_spec (g : GameState) (inp : FrameInput) (t : Timer)
    (hphase : g.game_state = some 1)
    (htimer : g.timer = .timerC t)
    (hquit : check_quit inp.keys inp.events = true)
    (hlive : (inp.ms : ℚ) / 1000 < t.time)
    (hmov : g.movables = [EntityRef.playerR])
    (hdraw : g.drawables = [EntityRef.playerR, EntityRef.timerR])
    (hbul : g.bullets = []) :
    (frameStep inp g).1.game_state = none ∧
      (frameStep inp g).1.player = (((g.player.key_move inp.keys).move).draw inp.ms).1 := by
  have haux : t.time > 0 := lt_of_le_of_lt (by positivity) hlive
  have hfired : ¬ (t.time - (inp.ms : ℚ) / 1000 ≤ 0) := by linarith
  have htick : t.tick inp.ms = (⟨t.time - (inp.ms : ℚ) / 1000⟩, false) := by
    simp [Timer.tick, haux, hfired]
  simp [frameStep, hquit, tickClock, htimer, htick, haux, moveAll, hmov,
    moveRef_playerR, drawAll, hdraw, drawRef_playerR, drawRef_timerR, bulletPass,
    hbul, bulletPassAux]

theorem pacing_count_spec (g : GameState) (inp : FrameInput) (t : Timer)
    (hphase : g.game_state = some 1)
    (hquit : check_quit inp.keys inp.events = false)
    (htimer : g.timer = .timerC t)
    (hlive : (inp.ms : ℚ) / 1000 < t.time)
    (hspawn : (inp.ms : ℚ) / 1000 < g.bullet_timer.time)
    (hmov : g.movables = [EntityRef.playerR])
    (hdraw : g.drawables = [EntityRef.playerR, EntityRef.timerR])
    (hcyc : ∀ c ∈ g.player.sprites, 0 < c.timer.time)
    (hlen : g.player.sprites.length = 9) :
    (frameStep inp g).2 = 11 := by
  have haux : t.time > 0 := lt_of_le_of_lt (by positivity) hlive
  have hfired : ¬ (t.time - (inp.ms : ℚ) / 1000 ≤ 0) := by linarith
  have htick : t.tick inp.ms = (⟨t.time - (inp.ms : ℚ) / 1000⟩, false) := by
    simp [Timer.tick, haux, hfired]
  have hbt : g.bullet_timer.time > 0 := lt_of_le_of_lt (by positivity) hspawn
  have hbfired : ¬ (g.bullet_timer.time - (inp.ms : ℚ) / 1000 ≤ 0) := by linarith
  have htickb : g.bullet_timer.tick inp.ms =
      (⟨g.bullet_timer.time - (inp.ms : ℚ) / 1000⟩, false) := by
    simp [Timer.tick, hbt, hbfired]
  have hsp : ((g.player.key_move inp.keys).move).sprites = g.player.sprites := rfl
  have hdcalls := draw_calls_eq_length ((g.player.key_move inp.keys).move) inp.ms
    (by rw [hsp]; exact hcyc)
  rw [hsp, hlen] at hdcalls
  simp [frameStep, hquit, tickClock, htimer, htick, haux, hphase, tickBulletTimer,
    htickb, hbt, moveAll, hmov, moveRef_playerR, drawAll, drawRef_playerR,
    drawRef_timerR, hdraw, hdcalls]

theorem initCycles_pos : ∀ c ∈ initCycles, 0 < c.timer.time := by
  intro c hc
  simp only [initCycles, List.mem_cons, List.not_mem_nil, or_false] at hc
  rcases hc with h | h | h | h | h | h | h | h | h <;> rw [h] <;> norm_num

/-- C2 counterexample: in the concrete Countdown state `cexQuitState`
(player drifting right at speed 3) with the escape key held, the quit
condition triggers and `game_state` becomes `None`, but the same frame
still runs movement (the player's x coordinate changes) and drawing (the
sight reveal advances) — the loop body has no early exit, so the frame is
fully simulated and the loop only stops before the next frame. -/
theorem c2_quit_frame_still_simulates_cex :
    check_quit escapeInput.keys escapeInput.events = true ∧
      (frameStep escapeInput cexQuitState).1.game_state = none ∧
      ¬ (frameStep escapeInput cexQuitState).1.player.x = cexQuitState.player.x ∧
      ¬ (frameStep escapeInput cexQuitState).1.player.sight =
        cexQuitState.player.sight := by
  obtain ⟨hgs, hpl⟩ := quit_frame_spec cexQuitState escapeInput ⟨20⟩ rfl rfl rfl
    (by norm_num [escapeInput]) rfl rfl rfl
  refine ⟨rfl, hgs, ?_, ?_⟩
  · rw [hpl, draw_x_eq]
    have hx : ((cexQuitState.player.key_move escapeInput.keys).move).x = 4059/20 := by
      norm_num [cexQuitState, initGameState, mainPlayer, Player.init, Player.key_move,
        accelStep, clampStep, frictionStep, deadbandStep, Vec.add, Vec.sub,
        Vec.get_x_vector, Vec.get_y_vector, Vec.set_x_vector, Vec.set_y_vector,
        FRICTION_VECTOR, MAX_SPEED, Player.move, WIDTH, HEIGHT, GAME_WIDTH,
        GAME_HEIGHT, escapeInput, playerRect, pytrunc]
    rw [hx]
    norm_num [cexQuitState, initGameState, mainPlayer, Player.init]
  · rw [hpl, (draw_sight_eq _ _).1]
    have h0 : ((cexQuitState.player.key_move escapeInput.keys).move).sight = 0 := rfl
    have h1 : ((cexQuitState.player.key_move escapeInput.keys).move).is_playing_animation
        = true := rfl
    rw [Player.drawSight, if_pos ⟨by rw [h0]; norm_num, by rw [h1]⟩]
    simp only [h0]
    norm_num [cexQuitState, initGameState, mainPlayer, Player.init]

/-- C2 amended: the quit condition is evaluated each frame before any
simulation step; `check_quit` triggers when the escape key is held or a
window-close event is among the events its own queue drain observes (events
consumed by the loop's earlier `pygame.event.clear()` are not observed);
when it triggers, `game_state` is set to `None`, but the frame is not cut
short: the phase timer still ticks and — the phase-conditional steps now
being skipped — the player still key-moves, moves, and draws on that frame
(stated here for a bulletless Countdown frame whose countdown does not
expire); the loop then exits before the next frame. -/
theorem c2_quit_sets_none_frame_completes (g : GameState) (inp : FrameInput) (t : Timer)
    (hphase : g.game_state = some 1)
    (htimer : g.timer = .timerC t)
    (hquit : check_quit inp.keys inp.events = true)
    (hlive : (inp.ms : ℚ) / 1000 < t.time)
    (hmov : g.movables = [EntityRef.playerR])
    (hdraw : g.drawables = [EntityRef.playerR, EntityRef.timerR])
    (hbul : g.bullets = []) :
    (frameStep inp g).1.game_state = none ∧
      (frameStep inp g).1.player = (((g.player.key_move inp.keys).move).draw inp.ms).1 :=
  quit_frame_spec g inp t hphase htimer hquit hlive hmov hdraw hbul

/-- C2 witness for the amended claim: at the initial loop state with the
escape key held, the frame sets `game_state` to `None` yet the player state
still advances by the full key-move / move / draw pipeline of that frame. -/
theorem c2_quit_sets_none_frame_completes_witness :
    (frameStep escapeInput initGameState).1.game_state = none ∧
      (frameStep escapeInput initGameState).1.player =
        (((initGameState.player.key_move escapeInput.keys).move).draw escapeInput.ms).1 :=
  c2_quit_sets_none_frame_completes initGameState escapeInput ⟨20⟩ rfl rfl rfl
    (by norm_num [escapeInput]) rfl rfl rfl

/-- C10 counterexample: on the very first Countdown frame from the initial
loop state (no keys held), the blocking frame-pacing call is performed 11
times — once by the countdown timer, once by the spawn timer, and once by
each of the player's nine animation-cycle timers — not exactly once per
frame. -/
theorem c10_pacing_calls_cex :
    (frameStep idleInput initGameState).2 = 11 ∧
      ¬ (frameStep idleInput initGameState).2 = 1 := by
  have h := pacing_count_spec initGameState idleInput ⟨20⟩ rfl rfl rfl
    (by norm_num [idleInput]) (by norm_num [idleInput, initGameState]) rfl rfl
    initCycles_pos rfl
  exact ⟨h, by rw [h]; norm_num⟩

/-- C10 amended: the blocking frame-pacing call is performed once per
ticked timer object, not once per frame: on a Countdown frame with no quit,
no countdown expiry and no spawn firing, the count is exactly 11 — one for
the countdown timer, one for the spawn timer, and one for each of the nine
animation-cycle timers ticked inside the player's draw. -/
theorem c10_pacing_once_per_timer_object (g : GameState) (inp : FrameInput) (t : Timer)
    (hphase : g.game_state = some 1)
    (hquit : check_quit inp.keys inp.events = false)
    (htimer : g.timer = .timerC t)
    (hlive : (inp.ms : ℚ) / 1000 < t.time)
    (hspawn : (inp.ms : ℚ) / 1000 < g.bullet_timer.time)
    (hmov : g.movables = [EntityRef.playerR])
    (hdraw : g.drawables = [EntityRef.playerR, EntityRef.timerR])
    (hcyc : ∀ c ∈ g.player.sprites, 0 < c.timer.time)
    (hlen : g.player.sprites.length = 9) :
    (frameStep inp g).2 = 11 :=
  pacing_count_spec g inp t hphase hquit htimer hlive hspawn hmov hdraw hcyc hlen

/-- C10 witness for the amended claim: the first frame from the initial
loop state performs exactly 11 pacing calls. -/
theorem c10_pacing_once_per_timer_object_witness :
    (frameStep idleInput initGameState).2 = 11 :=
  c10_pacing_once_per_timer_object initGameState idleInput ⟨20⟩ rfl rfl rfl
    (by norm_num [idleInput]) (by norm_num [idleInput, initGameState]) rfl rfl
    initCycles_pos rfl

end EGame
